import Mathlib

/-
  Verification development for the FinalProject-Back lost-and-found matching
  backend.  The definitions below are a shallow embedding of the TypeScript
  sources (src/services/gemini-service.ts, src/services/socket.service.ts,
  src/services/image-comparison.service.ts, src/controllers/item_controller.ts,
  and the ai-matching-service / vision-service modules).  Numbers are modelled
  with ℚ/ℤ/ℕ; JavaScript `undefined`/absent optional fields with Option; the
  transcendental haversine distance is kept as an explicit function parameter
  `dist` (the sources only ever compare it with constants).
-/

namespace LostFound

/-- Structured coordinates, as in the `{lat, lng}` location objects. -/
structure Coord where
  lat : ℚ
  lng : ℚ
deriving DecidableEq, Repr

/-- The `location` field union: absent/empty, a free-text string, or
coordinates.  Objects lacking numeric `lat`/`lng` (e.g. `{city}`) behave in the
sources exactly like the text case (distance resolves to Infinity/NaN and no
rule fires), so they are subsumed by `text`. -/
inductive Location where
  | none
  | text (s : String)
  | coords (c : Coord)
deriving DecidableEq, Repr

/-- The `itemType: 'lost' | 'found'` enum of item_model.ts. -/
inductive ItemType where
  | lost
  | found
deriving DecidableEq, Repr

/-- An item record, with the fields the matching core reads
(item_model.ts).  `none` models JavaScript `undefined`; timestamps are epoch
milliseconds. -/
structure Item where
  userId : String
  itemType : ItemType
  description : Option String
  category : Option String
  location : Location
  timestamp : Option ℤ
  isResolved : Bool
deriving DecidableEq, Repr

/-! ### Character-level string helpers (JavaScript semantics, executable) -/

/-- JavaScript `s.toLowerCase()` (ASCII, which is all the sources compare). -/
def jsToLower (s : String) : String := String.mk (s.data.map Char.toLower)

/-- Split a character list at every whitespace character, keeping the (possibly
empty) fragments between them — the semantics of splitting on a
single-whitespace separator. -/
def splitWsAux : List Char → List Char → List (List Char)
  | [], cur => [cur.reverse]
  | c :: rest, cur =>
      if c.isWhitespace then cur.reverse :: splitWsAux rest []
      else splitWsAux rest (c :: cur)

/-- `s.split` at whitespace characters. -/
def splitWs (s : String) : List String := (splitWsAux s.data []).map String.mk

/-- Drop leading and trailing whitespace, JavaScript `s.trim()`. -/
def trimChars (cs : List Char) : List Char :=
  ((cs.dropWhile Char.isWhitespace).reverse.dropWhile Char.isWhitespace).reverse

/-- Coordinates of a location, when it has numeric `lat`/`lng`
(`validLocation` in gemini-service.ts line 445; the string/absent cases of
`calculateDistanceInKm` lines 281-282). -/
def coordsOf : Location → Option Coord
  | Location.coords c => some c
  | _ => Option.none

/-- The temporal guard of `shouldSkipComparison`: both timestamps present and
found strictly earlier than lost (gemini-service.ts lines 310-313). -/
def tsBad (lostTs foundTs : Option ℤ) : Bool :=
  match lostTs, foundTs with
  | some tl, some tf => decide (tf < tl)
  | _, _ => false

/-- The category guard of `shouldSkipComparison`: both categories truthy
(defined and non-empty, as in the JavaScript truthiness test) and different
(gemini-service.ts lines 316-319). -/
def catBad (lostCat foundCat : Option String) : Bool :=
  match lostCat, foundCat with
  | some cl, some cf => decide (cl ≠ "") && decide (cf ≠ "") && decide (cl ≠ cf)
  | _, _ => false

/-- `calculateDistanceInKm` as the sources use it: `none` models the Infinity
returned when either side lacks coordinates, otherwise the haversine value
`dist a b` (gemini-service.ts lines 277-297 and 460-466; `dist` abstracts the
transcendental haversine formula with Earth radius 6371 km). -/
def distOpt (dist : Coord → Coord → ℚ) (la lb : Location) : Option ℚ :=
  match coordsOf la, coordsOf lb with
  | some a, some b => some (dist a b)
  | _, _ => Option.none

/-- The distance guard: `distance < Infinity && distance > 100`
(gemini-service.ts lines 322-325 and 467-469). -/
def distBad (dist : Coord → Coord → ℚ) (la lb : Location) : Bool :=
  match distOpt dist la lb with
  | some d => decide (100 < d)
  | Option.none => false

/-- The candidate filter `shouldSkipComparison` (gemini-service.ts lines
305-328; the second copy at lines 447-472 is behaviourally identical). -/
def shouldSkipComparison (dist : Coord → Coord → ℚ) (lostItem foundItem : Item) : Bool :=
  if lostItem.isResolved || foundItem.isResolved then true
  else if tsBad lostItem.timestamp foundItem.timestamp then true
  else if catBad lostItem.category foundItem.category then true
  else if distBad dist lostItem.location foundItem.location then true
  else false

/-! ### Fallback scorer (gemini-service.ts lines 360-408 / 498-530) -/

/-- Category component: +40 for an exact match of two truthy categories
(gemini-service.ts lines 373-376). -/
def categoryScore (lostItem foundItem : Item) : ℚ :=
  match lostItem.category, foundItem.category with
  | some cl, some cf => if cl ≠ "" ∧ cf ≠ "" ∧ cl = cf then 40 else 0
  | _, _ => 0

/-- Location component: `Math.max(0, 40 - distance * 0.4)` when a distance is
available, 0 otherwise (gemini-service.ts lines 379-384). -/
def locationScore (dist : Coord → Coord → ℚ) (lostItem foundItem : Item) : ℚ :=
  match distOpt dist lostItem.location foundItem.location with
  | some d => max 0 (40 - d * (2/5))
  | Option.none => 0

/-- Tokens of a description as the fallback scorer produces them:
`description.toLowerCase().split(/\s+/)` (gemini-service.ts lines 388-389).
Splitting at every whitespace character may leave empty fragments that the
`word.length > 2` guard discards exactly as in the source. -/
def descWords (s : String) : List String :=
  splitWs (jsToLower s)

/-- Number of tokens of the found description that occur among the lost
description's tokens and are longer than 2 characters, counted with
multiplicity over the found list (gemini-service.ts lines 391-396). -/
def matchingWordCount (lostDesc foundDesc : String) : ℕ :=
  ((descWords foundDesc).filter
    (fun w => decide (w ∈ descWords lostDesc) && decide (2 < w.length))).length

/-- Description component: `Math.min(20, matchingWords * 5)` when both
descriptions are truthy (gemini-service.ts lines 387-399). -/
def descriptionScore (lostItem foundItem : Item) : ℚ :=
  match lostItem.description, foundItem.description with
  | some ld, some fd =>
      if ld ≠ "" ∧ fd ≠ "" then min 20 ((matchingWordCount ld fd : ℚ) * 5) else 0
  | _, _ => 0

/-- The complete fallback score of one lost/found pair
(gemini-service.ts lines 370-399). -/
def fallbackScore (dist : Coord → Coord → ℚ) (lostItem foundItem : Item) : ℚ :=
  categoryScore lostItem foundItem + locationScore dist lostItem foundItem +
    descriptionScore lostItem foundItem

/-! ### Sorting: `matches.sort((a, b) => b.confidenceScore - a.confidenceScore)`
modelled by a stable insertion sort by descending score. -/

/-- Insert a match before the first strictly lower-scored entry. -/
def insertDesc (x : Item × ℚ) : List (Item × ℚ) → List (Item × ℚ)
  | [] => [x]
  | y :: ys => if y.2 < x.2 then x :: y :: ys else y :: insertDesc x ys

/-- Stable sort by descending confidence score. -/
def sortByScoreDesc (l : List (Item × ℚ)) : List (Item × ℚ) :=
  l.foldr insertDesc []

/-- Sortedness by non-increasing score. -/
def SortedDesc (l : List (Item × ℚ)) : Prop :=
  List.Pairwise (fun a b => b.2 ≤ a.2) l

/-- The lost item of a target/candidate pair:
`targetItem.itemType === 'lost' ? targetItem : potentialMatch`. -/
def pickLost (target p : Item) : Item :=
  if target.itemType = ItemType.lost then target else p

/-- The found item of a target/candidate pair:
`targetItem.itemType === 'found' ? targetItem : potentialMatch`. -/
def pickFound (target p : Item) : Item :=
  if target.itemType = ItemType.found then target else p

/-- `AIMatchingService.findMatches`, first iteration (part_001): filter to
opposite-type candidates, skip filtered pairs, score each surviving pair with
the external evaluator `evalScore` (`geminiService.evaluateMatch`, an external
call abstracted as a function), keep scores ≥ 55, sort descending.  A
candidate whose evaluation throws is skipped, which coincides with not being
pushed. -/
def findMatchesAI (dist : Coord → Coord → ℚ) (evalScore : Item → Item → ℚ)
    (target : Item) (pool : List Item) : List (Item × ℚ) :=
  sortByScoreDesc
    ((pool.filter (fun i => decide (i.itemType ≠ target.itemType))).filterMap (fun p =>
      if shouldSkipComparison dist (pickLost target p) (pickFound target p) then Option.none
      else if 55 ≤ evalScore (pickLost target p) (pickFound target p) then
        some (p, evalScore (pickLost target p) (pickFound target p))
      else Option.none))

/-- `AIMatchingService.findMatches`, second iteration (part_002): identical
except that the candidate pool is iterated without the opposite-type filter. -/
def findMatchesAIv2 (dist : Coord → Coord → ℚ) (evalScore : Item → Item → ℚ)
    (target : Item) (pool : List Item) : List (Item × ℚ) :=
  sortByScoreDesc
    (pool.filterMap (fun p =>
      if shouldSkipComparison dist (pickLost target p) (pickFound target p) then Option.none
      else if 55 ≤ evalScore (pickLost target p) (pickFound target p) then
        some (p, evalScore (pickLost target p) (pickFound target p))
      else Option.none))

/-- `MatchingService.findMatches` fallback branch (gemini-service.ts lines
353-411), reached when the AI matching service throws: deterministic scoring,
pushing every non-skipped pair whose score is strictly positive. -/
def findMatchesFallback (dist : Coord → Coord → ℚ)
    (target : Item) (pool : List Item) : List (Item × ℚ) :=
  sortByScoreDesc
    ((pool.filter (fun i => decide (i.itemType ≠ target.itemType))).filterMap (fun p =>
      if shouldSkipComparison dist (pickLost target p) (pickFound target p) then Option.none
      else if 0 < fallbackScore dist (pickLost target p) (pickFound target p) then
        some (p, fallbackScore dist (pickLost target p) (pickFound target p))
      else Option.none))

/-! ### Controller layer (item_controller.ts lines 11-54 and 184-271),
parameterised over the list returned by `matchingService.findMatches`. -/

/-- `significantMatches`: retain scores ≥ 55 (item_controller.ts lines 22-27). -/
def significantMatches (ms : List (Item × ℚ)) : List (Item × ℚ) :=
  ms.filter (fun m => decide (55 ≤ m.2))

/-- `highConfidenceMatches`: retain scores ≥ 75 (item_controller.ts lines 28-30). -/
def highConfidenceMatches (ms : List (Item × ℚ)) : List (Item × ℚ) :=
  ms.filter (fun m => decide (75 ≤ m.2))

/-- The list `findPotentialMatches` returns (item_controller.ts line 49). -/
def findPotentialMatchesResult (serviceMatches : List (Item × ℚ)) : List (Item × ℚ) :=
  significantMatches serviceMatches

/-- Whether `findPotentialMatches` emits its notification to the target item's
owner: only when some high-confidence (≥ 75) match exists
(item_controller.ts lines 31-47). -/
def ownerNotified (serviceMatches : List (Item × ℚ)) : Bool :=
  !(highConfidenceMatches (significantMatches serviceMatches)).isEmpty

/-- The users to whom `uploadItem` emits a MATCH_FOUND notification, given the
potential matches returned by `findPotentialMatches`: each matched item's
owner (lines 189-207), plus the uploader when any match exists
(lines 239-253). -/
def uploadItemNotifiedUsers (uploaderId : String)
    (potentialMatches : List (Item × ℚ)) : List String :=
  potentialMatches.map (fun m => m.1.userId) ++
    (if potentialMatches.isEmpty then [] else [uploaderId])

/-! ### Notification cooldown (socket.service.ts lines 46-114) -/

/-- Value of a leading block of decimal digits. -/
def digitsVal (cs : List Char) : ℤ :=
  cs.foldl (fun a c => 10 * a + ((c.toNat - '0'.toNat : ℕ) : ℤ)) 0

/-- Parse a leading run of digits; `none` when there is none. -/
def parseDigits (cs : List Char) : Option ℤ :=
  let ds := cs.takeWhile (fun c => c.isDigit)
  if ds.isEmpty then Option.none else some (digitsVal ds)

/-- JavaScript `parseInt(s)` in radix 10: skip leading whitespace, optional
sign, then read digits; `none` models NaN (no leading digits). -/
def parseIntJS (s : String) : Option ℤ :=
  match s.data.dropWhile (fun c => c.isWhitespace) with
  | '-' :: rest => (parseDigits rest).map (fun n => -n)
  | '+' :: rest => parseDigits rest
  | cs => parseDigits cs

/-- A notification payload, reduced to the fields the cooldown key uses. -/
structure Notification where
  ntype : String
  matchedItemId : String
deriving DecidableEq, Repr

/-- The key stored in the per-user set:
`` `${notification.type}_${notification.data?.matchedItemId || ''}_${Date.now()}` ``
(socket.service.ts line 77). -/
def notificationKey (n : Notification) (now : ℤ) : String :=
  n.ntype ++ "_" ++ n.matchedItemId ++ "_" ++ toString now

/-- The `recentNotifications` map: user id → stored keys. -/
abbrev CooldownMap := List (String × List String)

/-- `recentNotifications.get(userId) || new Set()`. -/
def lookupUser (st : CooldownMap) (u : String) : List String :=
  match st.find? (fun p => decide (p.1 = u)) with
  | some p => p.2
  | Option.none => []

/-- `recentNotifications.set(userId, set)`. -/
def setUser (st : CooldownMap) (u : String) (ks : List String) : CooldownMap :=
  if st.any (fun p => decide (p.1 = u)) then
    st.map (fun p => if p.1 = u then (u, ks) else p)
  else st ++ [(u, ks)]

/-- `NOTIFICATION_COOLDOWN = 5000` ms (socket.service.ts line 48). -/
def NOTIFICATION_COOLDOWN : ℤ := 5000

/-- One `emitNotification` call (socket.service.ts lines 68-96): if the user
already has stored entries the call is silently dropped; otherwise the key is
recorded and the notification delivered.  Returns the new map and whether the
notification was delivered. -/
def emitNotification (st : CooldownMap) (userId : String) (n : Notification)
    (now : ℤ) : CooldownMap × Bool :=
  let userNotifications := lookupUser st userId
  if 0 < userNotifications.length then (st, false)
  else (setUser st userId (userNotifications ++ [notificationKey n now]), true)

/-- The sweep's expiry test `now - parseInt(timestamp) > NOTIFICATION_COOLDOWN`
(socket.service.ts line 56); a NaN parse compares false, so the entry is kept. -/
def keyExpired (now : ℤ) (k : String) : Bool :=
  match parseIntJS k with
  | some t => decide (NOTIFICATION_COOLDOWN < now - t)
  | Option.none => false

/-- One run of the periodic cleanup interval (socket.service.ts lines 51-65):
drop expired entries, then drop users with no remaining entries. -/
def sweep (now : ℤ) (st : CooldownMap) : CooldownMap :=
  (st.map (fun p => (p.1, p.2.filter (fun k => !keyExpired now k)))).filter
    (fun p => !p.2.isEmpty)

/-- An event of the notification subsystem: an `emitNotification` call or a
firing of the cleanup interval, each with its wall-clock time `Date.now()`. -/
inductive SocketEvent where
  | emit (userId : String) (n : Notification) (t : ℤ)
  | sweep (t : ℤ)

/-- Run a sequence of events from a cooldown-map state, collecting the
(user, time) pairs of the notifications actually delivered. -/
def runEvents : List SocketEvent → CooldownMap → CooldownMap × List (String × ℤ)
  | [], st => (st, [])
  | SocketEvent.emit u n t :: es, st =>
      let r := emitNotification st u n t
      let rest := runEvents es r.1
      (rest.1, (if r.2 then [(u, t)] else []) ++ rest.2)
  | SocketEvent.sweep t :: es, st => runEvents es (sweep t st)

/-! ### Visual similarity analyzer (vision-service, part_005) -/

/-- A label annotation with detector confidence. -/
structure VisionLabel where
  description : String
  score : ℚ
deriving DecidableEq, Repr

/-- A localized object annotation with detector confidence. -/
structure VisionObject where
  name : String
  score : ℚ
deriving DecidableEq, Repr

/-- JavaScript `hay.includes(needle)`. -/
def substrOf (needle hay : String) : Bool :=
  decide (List.IsInfix needle.data hay.data)

/-- The fuzzy match of part_005 lines 358-361: case-insensitive equality or
substring containment in either direction (`d1` plays label1, `d2` label2). -/
def fuzzyNameMatch (d1 d2 : String) : Bool :=
  decide (jsToLower d2 = jsToLower d1) || substrOf (jsToLower d1) (jsToLower d2) ||
    substrOf (jsToLower d2) (jsToLower d1)

/-- One step of the `labels1.reduce` accumulator (part_005 lines 356-364):
add `label1.score * match.score` when labels2 has a fuzzy match for label1. -/
def labelMatchStep (labels2 : List VisionLabel) (count : ℚ) (l1 : VisionLabel) : ℚ :=
  match labels2.find? (fun l2 => fuzzyNameMatch l1.description l2.description) with
  | some m => count + l1.score * m.score
  | Option.none => count

/-- `calculateLabelSimilarity` (part_005 lines 353-367): sum over labels1 of
`label1.score * match.score` for the first fuzzy match in labels2, divided by
`min(labels1.length, labels2.length)`. -/
def calculateLabelSimilarity (labels1 labels2 : List VisionLabel) : ℚ :=
  if labels1.isEmpty || labels2.isEmpty then 0
  else (labels1.foldl (labelMatchStep labels2) 0) /
    ((min labels1.length labels2.length : ℕ) : ℚ)

/-- One step of the objects accumulator (part_005 lines 375-383). -/
def objectMatchStep (objects2 : List VisionObject) (count : ℚ) (o1 : VisionObject) : ℚ :=
  match objects2.find? (fun o2 => fuzzyNameMatch o1.name o2.name) with
  | some m => count + o1.score * m.score
  | Option.none => count

/-- `calculateObjectSimilarity` (part_005 lines 372-386): same computation over
object names. -/
def calculateObjectSimilarity (objects1 objects2 : List VisionObject) : ℚ :=
  if objects1.isEmpty || objects2.isEmpty then 0
  else (objects1.foldl (objectMatchStep objects2) 0) /
    ((min objects1.length objects2.length : ℕ) : ℚ)

/-- JavaScript `Math.round` for the values at hand: floor of `x + 1/2`. -/
def jsRound (x : ℚ) : ℤ := ⌊x + 1/2⌋

/-- The similarity score `VisionService.compareImages` computes from two
analysed signatures (part_005 lines 105-123):
`Math.round((labelSimilarity * 0.5 + objectSimilarity * 0.5) * 100)`. -/
def compareImagesScore (labels1 labels2 : List VisionLabel)
    (objects1 objects2 : List VisionObject) : ℤ :=
  jsRound ((calculateLabelSimilarity labels1 labels2 * (1/2) +
      calculateObjectSimilarity objects1 objects2 * (1/2)) * 100)

/-! ### Lexical text similarity
(image-comparison.service.ts lines 890-911) -/

/-- JavaScript `\w`: ASCII letters, digits, underscore. -/
def isWordChar (c : Char) : Bool := c.isAlphanum || c = '_'

/-- `text.toLowerCase().replace(/[^\w\s]/g, '').trim()`. -/
def normalizeText (s : String) : String :=
  String.mk (trimChars ((jsToLower s).data.filter (fun c => isWordChar c || c.isWhitespace)))

/-- `normalized.split(/\s+/).filter(word => word.length > 2)`; splitting at
every whitespace character leaves empty fragments that the length guard drops,
matching the regex split of trimmed input. -/
def simWords (s : String) : List String :=
  (splitWs s).filter (fun w => decide (2 < w.length))

/-- `calculateTextSimilarity` (image-comparison.service.ts lines 890-911):
guard on falsy inputs, early 1 for equal normalized forms, words of length > 2,
then `commonWords.length / uniqueWords.size` where `commonWords` filters the
FIRST word list (with multiplicity) and `uniqueWords` is the union set. -/
def calculateTextSimilarity (text1 text2 : String) : ℚ :=
  if text1 = "" || text2 = "" then 0
  else if normalizeText text1 = normalizeText text2 then 1
  else if (simWords (normalizeText text1)).isEmpty ||
      (simWords (normalizeText text2)).isEmpty then 0
  else
    (((simWords (normalizeText text1)).filter
        (fun w => decide (w ∈ simWords (normalizeText text2)))).length : ℚ) /
      ((((simWords (normalizeText text1)) ++ (simWords (normalizeText text2))).dedup.length : ℕ) : ℚ)

/-- Modelled from the spec: the similarity the specification describes,
`|intersection| / |union|` of the two token SETS (section 4.4), for comparison
with `calculateTextSimilarity`. -/
def specJaccardSimilarity (text1 text2 : String) : ℚ :=
  (((simWords (normalizeText text1)).toFinset ∩ (simWords (normalizeText text2)).toFinset).card : ℚ) /
    (((simWords (normalizeText text1)).toFinset ∪ (simWords (normalizeText text2)).toFinset).card : ℚ)

/-! ### Category-consistency post-processing
(image-comparison.service.ts lines 1386-1556) -/

/-- Normalized bounding box of a detection. -/
structure BoundingBox where
  x : ℚ
  y : ℚ
  width : ℚ
  height : ℚ
deriving DecidableEq, Repr

/-- An object detection of an analysis result. -/
structure DetectedObject where
  name : String
  score : ℚ
  boundingBox : BoundingBox
deriving DecidableEq, Repr

/-- A dominant-color entry (`{color: {red, green, blue}, score, pixelFraction}`). -/
structure ColorInfo where
  red : ℚ
  green : ℚ
  blue : ℚ
  score : ℚ
  pixelFraction : ℚ
deriving DecidableEq, Repr

/-- The `ImageData` analysis result the post-processor mutates. -/
structure ImageData where
  labels : List String
  objects : List DetectedObject
  webEntities : List String
  bestGuessLabels : List String
  dominantColors : List ColorInfo
deriving DecidableEq, Repr

/-- Labels, web entities and best guesses pooled as evidence terms
(lines 1388-1392). -/
def evidenceTerms (d : ImageData) : List String :=
  d.labels ++ d.webEntities ++ d.bestGuessLabels

/-- A term counting as speaker evidence (lines 1392-1400). -/
def speakerTermB (t : String) : Bool :=
  substrOf "speaker" (jsToLower t) || substrOf "audio" (jsToLower t) ||
    substrOf "loudspeaker" (jsToLower t) || substrOf "sound" (jsToLower t) ||
    substrOf "stereo" (jsToLower t) || substrOf "jbl" (jsToLower t)

/-- The speaker-related evidence list (lines 1388-1400). -/
def speakerEvidence (d : ImageData) : List String :=
  (evidenceTerms d).filter speakerTermB

/-- The dark-dominant-color heuristic (lines 1411-1422). -/
def hasBlackColor (d : ImageData) : Bool :=
  d.dominantColors.any (fun c =>
    decide (c.red < 50) && decide (c.green < 50) && decide (c.blue < 50) &&
      decide ((1/5 : ℚ) < c.pixelFraction))

/-- A wallet/purse object name (lines 1425-1427). -/
def isWalletName (s : String) : Bool :=
  decide (jsToLower s = "wallet") || decide (jsToLower s = "purse")

/-- Whether any detection is a wallet/purse (lines 1425-1427). -/
def hasWalletObjects (d : ImageData) : Bool :=
  d.objects.any (fun o => isWalletName o.name)

/-- A direct loudspeaker/speaker label (lines 1431-1433). -/
def hasLoudspeakerLabel (d : ImageData) : Bool :=
  d.labels.any (fun l =>
    decide (jsToLower l = "loudspeaker") || decide (jsToLower l = "speaker"))

/-- The guard of the wallet → speaker correction (line 1435). -/
def walletCond (d : ImageData) : Bool :=
  hasWalletObjects d &&
    (decide (1 ≤ (speakerEvidence d).length) || hasLoudspeakerLabel d || hasBlackColor d)

/-- Rename one wallet/purse detection to a high-confidence loudspeaker
(lines 1446-1456). -/
def renameWallet (o : DetectedObject) : DetectedObject :=
  if isWalletName o.name then { o with name := "Loudspeaker", score := 19/20 } else o

/-- Whether some detection name contains "speaker" (line 1459). -/
def hasSpeakerObject (os : List DetectedObject) : Bool :=
  os.any (fun o => substrOf "speaker" (jsToLower o.name))

/-- Whether some label contains "speaker" (line 1474). -/
def hasSpeakerLabel (ls : List String) : Bool :=
  ls.any (fun l => substrOf "speaker" (jsToLower l))

/-- The bounding box of synthesised detections (lines 1464-1469). -/
def defaultBox : BoundingBox := ⟨1/10, 1/10, 4/5, 4/5⟩

/-- The detection pushed when no speaker object remains (lines 1461-1470;
unreachable after the rename, kept as in the source). -/
def loudspeakerObj : DetectedObject := ⟨"Loudspeaker", 9/10, defaultBox⟩

/-- The wallet → speaker correction block (lines 1424-1477). -/
def walletFix (d : ImageData) : ImageData :=
  if walletCond d then
    { d with
      objects :=
        if hasSpeakerObject (d.objects.map renameWallet) then d.objects.map renameWallet
        else d.objects.map renameWallet ++ [loudspeakerObj],
      labels :=
        if hasSpeakerLabel d.labels then d.labels else d.labels ++ ["Loudspeaker"] }
  else d

/-- A term counting as headphone evidence (lines 1480-1490). -/
def headphoneTermB (t : String) : Bool :=
  substrOf "headphone" (jsToLower t) || substrOf "earphone" (jsToLower t) ||
    substrOf "earbuds" (jsToLower t) || substrOf "headset" (jsToLower t)

/-- Whether some detection name contains "headphone" (line 1493). -/
def hasHeadphoneObj (os : List DetectedObject) : Bool :=
  os.any (fun o => substrOf "headphone" (jsToLower o.name))

/-- The detection pushed by the headphone correction (lines 1498-1507). -/
def headphoneObj : DetectedObject := ⟨"Headphone", 17/20, defaultBox⟩

/-- The missing-headphone correction (lines 1492-1508): at least two evidence
terms and no headphone detection yet. -/
def headphoneFix (d : ImageData) : ImageData :=
  if decide (2 ≤ ((evidenceTerms d).filter headphoneTermB).length) &&
      !(hasHeadphoneObj d.objects) then
    { d with objects := d.objects ++ [headphoneObj] }
  else d

/-- A term counting as camera evidence (lines 1511-1521). -/
def cameraTermB (t : String) : Bool :=
  substrOf "camera" (jsToLower t) || substrOf "digital camera" (jsToLower t) ||
    substrOf "dslr" (jsToLower t) || substrOf "photography" (jsToLower t)

/-- Whether some detection name contains "camera" (line 1524). -/
def hasCameraObj (os : List DetectedObject) : Bool :=
  os.any (fun o => substrOf "camera" (jsToLower o.name))

/-- The detection pushed by the camera correction (lines 1529-1538). -/
def cameraObj : DetectedObject := ⟨"Camera", 17/20, defaultBox⟩

/-- The missing-camera correction (lines 1523-1539). -/
def cameraFix (d : ImageData) : ImageData :=
  if decide (2 ≤ ((evidenceTerms d).filter cameraTermB).length) &&
      !(hasCameraObj d.objects) then
    { d with objects := d.objects ++ [cameraObj] }
  else d

/-- The final confidence boost for speaker detections (lines 1542-1552). -/
def boostSpeaker (o : DetectedObject) : DetectedObject :=
  if substrOf "speaker" (jsToLower o.name) || substrOf "loudspeaker" (jsToLower o.name) then
    { o with score := max o.score (19/20) }
  else o

/-- Apply the speaker boost to all detections (lines 1542-1552). -/
def speakerBoost (d : ImageData) : ImageData :=
  { d with objects := d.objects.map boostSpeaker }

/-- `postProcessAnalysisResult` (image-comparison.service.ts lines 1386-1556)
as a pure function: the four correction stages in source order. -/
def postProcessAnalysisResult (d : ImageData) : ImageData :=
  speakerBoost (cameraFix (headphoneFix (walletFix d)))

/-! ### Concrete data used by counterexamples and witnesses -/

/-- A degenerate distance function for concrete instantiations. -/
def dist0 : Coord → Coord → ℚ := fun _ _ => 0

/-- An evaluator oracle returning the constant score 60. -/
def eval60 : Item → Item → ℚ := fun _ _ => 60

/-- A lost wallet report with only a category. -/
def walletLost : Item :=
  ⟨"userLost", ItemType.lost, Option.none, some "wallet", Location.none, Option.none, false⟩

/-- A found wallet report with only a category. -/
def walletFound : Item :=
  ⟨"userFound", ItemType.found, Option.none, some "wallet", Location.none, Option.none, false⟩

/-- A featureless unresolved lost item. -/
def plainLostA : Item :=
  ⟨"userA", ItemType.lost, Option.none, Option.none, Location.none, Option.none, false⟩

/-- A second featureless unresolved lost item. -/
def plainLostB : Item :=
  ⟨"userB", ItemType.lost, Option.none, Option.none, Location.none, Option.none, false⟩

/-- A featureless unresolved found item. -/
def plainFoundC : Item :=
  ⟨"userC", ItemType.found, Option.none, Option.none, Location.none, Option.none, false⟩

/-- Signature labels whose single short counterpart fuzzily matches twice. -/
def catLabels1 : List VisionLabel := [⟨"cat", 1⟩, ⟨"category", 1⟩]

/-- The shorter label list. -/
def catLabels2 : List VisionLabel := [⟨"cat", 1⟩]

/-- Matching object shapes with the same names. -/
def catObjects1 : List VisionObject := [⟨"cat", 1⟩, ⟨"category", 1⟩]

/-- The shorter object list. -/
def catObjects2 : List VisionObject := [⟨"cat", 1⟩]

/-- A wallet detection on a predominantly black image, with no speaker terms
anywhere in labels, web entities or best guesses. -/
def blackWalletData : ImageData :=
  { labels := [], objects := [⟨"Wallet", 1/2, ⟨0, 0, 1, 1⟩⟩],
    webEntities := [], bestGuessLabels := [],
    dominantColors := [⟨10, 10, 10, 1/2, 1/2⟩] }

/-- A first match notification payload. -/
def matchNotifA : Notification := ⟨"MATCH_FOUND", "itemA"⟩

/-- A second match notification payload. -/
def matchNotifB : Notification := ⟨"MATCH_FOUND", "itemB"⟩

/-- Replace the `itemType` of an item, leaving every other field unchanged. -/
def setItemType (t : ItemType) (i : Item) : Item := { i with itemType := t }

/-! ### Lemmas about the descending insertion sort -/

lemma mem_insertDesc {x a : Item × ℚ} : ∀ {l : List (Item × ℚ)},
    a ∈ insertDesc x l ↔ a = x ∨ a ∈ l := by
  intro l
  induction l with
  | nil => simp [insertDesc]
  | cons y ys ih =>
      simp only [insertDesc]
      split
      · simp
      · simp only [List.mem_cons, ih]
        tauto

lemma pairwise_insertDesc {x : Item × ℚ} : ∀ {l : List (Item × ℚ)},
    List.Pairwise (fun a b => b.2 ≤ a.2) l →
    List.Pairwise (fun a b => b.2 ≤ a.2) (insertDesc x l) := by
  intro l
  induction l with
  | nil => intro _; simp [insertDesc]
  | cons y ys ih =>
      intro h
      have hy : ∀ z ∈ ys, z.2 ≤ y.2 := fun z hz => List.rel_of_pairwise_cons h hz
      have hys := h.of_cons
      simp only [insertDesc]
      split
      · rename_i hlt
        refine List.Pairwise.cons ?_ h
        intro z hz
        rcases List.mem_cons.mp hz with hz | hz
        · subst hz; exact le_of_lt hlt
        · exact le_trans (hy z hz) (le_of_lt hlt)
      · rename_i hnlt
        refine List.Pairwise.cons ?_ (ih hys)
        intro z hz
        rcases mem_insertDesc.mp hz with hz | hz
        · subst hz; exact not_lt.mp hnlt
        · exact hy z hz

lemma sortedDesc_sortByScoreDesc (l : List (Item × ℚ)) :
    SortedDesc (sortByScoreDesc l) := by
  induction l with
  | nil => simp [sortByScoreDesc, SortedDesc]
  | cons x xs ih =>
      simpa [sortByScoreDesc, List.foldr] using pairwise_insertDesc ih

lemma mem_sortByScoreDesc {a : Item × ℚ} {l : List (Item × ℚ)} :
    a ∈ sortByScoreDesc l ↔ a ∈ l := by
  induction l with
  | nil => simp [sortByScoreDesc]
  | cons x xs ih =>
      simp only [sortByScoreDesc, List.foldr, List.mem_cons]
      rw [mem_insertDesc]
      simp only [sortByScoreDesc] at ih
      rw [ih]

lemma mem_findMatchesAI {dist : Coord → Coord → ℚ} {evalScore : Item → Item → ℚ}
    {target : Item} {pool : List Item} {m : Item × ℚ}
    (h : m ∈ findMatchesAI dist evalScore target pool) :
    m.1 ∈ pool ∧ m.1.itemType ≠ target.itemType ∧ 55 ≤ m.2 := by
  unfold findMatchesAI at h
  rw [mem_sortByScoreDesc] at h
  rcases List.mem_filterMap.mp h with ⟨p, hp, hf⟩
  rcases List.mem_filter.mp hp with ⟨hmem, hty⟩
  split at hf
  · exact absurd hf (by simp)
  · split at hf
    · rename_i h55
      cases hf
      exact ⟨hmem, of_decide_eq_true hty, h55⟩
    · exact absurd hf (by simp)

lemma mem_findMatchesFallback {dist : Coord → Coord → ℚ}
    {target : Item} {pool : List Item} {m : Item × ℚ}
    (h : m ∈ findMatchesFallback dist target pool) :
    m.1 ∈ pool ∧ m.1.itemType ≠ target.itemType ∧ 0 < m.2 ∧
      m.2 = fallbackScore dist (pickLost target m.1) (pickFound target m.1) := by
  unfold findMatchesFallback at h
  rw [mem_sortByScoreDesc] at h
  rcases List.mem_filterMap.mp h with ⟨p, hp, hf⟩
  rcases List.mem_filter.mp hp with ⟨hmem, hty⟩
  split at hf
  · exact absurd hf (by simp)
  · split at hf
    · rename_i hpos
      cases hf
      exact ⟨hmem, of_decide_eq_true hty, hpos, rfl⟩
    · exact absurd hf (by simp)

lemma findMatchesFallback_singleton {dist : Coord → Coord → ℚ} {t c : Item} {s : ℚ}
    (hty : decide (c.itemType ≠ t.itemType) = true)
    (hskip : shouldSkipComparison dist (pickLost t c) (pickFound t c) = false)
    (hs : fallbackScore dist (pickLost t c) (pickFound t c) = s)
    (hpos : 0 < s) :
    findMatchesFallback dist t [c] = [(c, s)] := by
  unfold findMatchesFallback
  rw [List.filter_cons, if_pos hty, List.filter_nil, List.filterMap_cons, hskip, hs,
    List.filterMap_nil]
  simp only [Bool.false_eq_true, if_false, if_pos hpos]
  rfl

lemma fallbackScore_wallets : fallbackScore dist0 walletLost walletFound = 40 := by
  unfold fallbackScore categoryScore locationScore descriptionScore distOpt coordsOf
    walletLost walletFound
  norm_num [show ("wallet" : String) ≠ "" from by decide]

/-- C1, counterexample: on the fallback path the claim fails — with a lost and
a found wallet report sharing only a category, `MatchingService.findMatches`
returns the pair with score 40, which is below the claimed ≥ 55 threshold
(the fallback pushes every score > 0, gemini-service.ts line 402). -/
theorem C1_fallback_below_threshold :
    findMatchesFallback dist0 walletLost [walletFound] = [(walletFound, 40)] ∧
    ¬ (55 ≤ (40 : ℚ)) := by
  constructor
  · exact findMatchesFallback_singleton (by decide) (by decide) fallbackScore_wallets
      (by norm_num)
  · norm_num

/-- C1, amended: on both paths the returned list is sorted non-increasing by
score; on the primary (AI-backed) path every returned score is ≥ 55, but on
the fallback path every returned score is merely > 0 (scores between 0 and 55
are returned; the ≥ 55 cut happens later in the controller). -/
theorem C1_amended_sorted_thresholds (dist : Coord → Coord → ℚ)
    (evalScore : Item → Item → ℚ) (target : Item) (pool : List Item) :
    SortedDesc (findMatchesAI dist evalScore target pool) ∧
    (∀ m ∈ findMatchesAI dist evalScore target pool, 55 ≤ m.2) ∧
    SortedDesc (findMatchesFallback dist target pool) ∧
    (∀ m ∈ findMatchesFallback dist target pool, 0 < m.2) := by
  refine ⟨?_, ?_, ?_, ?_⟩
  · exact sortedDesc_sortByScoreDesc _
  · intro m hm
    exact (mem_findMatchesAI hm).2.2
  · exact sortedDesc_sortByScoreDesc _
  · intro m hm
    exact (mem_findMatchesFallback hm).2.2.1

/-- Witness for the amended C1 theorem, at the concrete wallet items. -/
theorem C1_amended_sorted_thresholds_witness :
    (55 : ℚ) ≤ 60 ∧ (0 : ℚ) < 40 := by
  have hmem : (walletFound, (40 : ℚ)) ∈ findMatchesFallback dist0 walletLost [walletFound] := by
    rw [findMatchesFallback_singleton (by decide) (by decide) fallbackScore_wallets
      (by norm_num)]
    exact List.mem_singleton_self _
  constructor
  · exact (C1_amended_sorted_thresholds dist0 eval60 walletLost [walletFound]).2.1
      (walletFound, 60) (by decide)
  · exact (C1_amended_sorted_thresholds dist0 eval60 walletLost [walletFound]).2.2.2
      (walletFound, 40) hmem

/-- C8, counterexample: the part_002 iteration of
`AIMatchingService.findMatches` has no opposite-type filter — with a lost
target and a lost candidate (both unresolved, featureless) and an evaluator
returning 60, the same-type candidate is scored and returned. -/
theorem C8_same_type_pair_included :
    findMatchesAIv2 dist0 eval60 plainLostA [plainLostB] = [(plainLostB, 60)] ∧
    plainLostB.itemType = plainLostA.itemType := by
  constructor
  · decide
  · decide

/-- C8, amended: in the part_001 iteration (the one with the
`compatibleItems` filter) every returned candidate has the opposite
`itemType` from the target, for every evaluator and every pool; the part_002
iteration lacks the filter and can return same-type candidates. -/
theorem C8_amended_opposite_type (dist : Coord → Coord → ℚ)
    (evalScore : Item → Item → ℚ) (target : Item) (pool : List Item) :
    ∀ m ∈ findMatchesAI dist evalScore target pool, m.1.itemType ≠ target.itemType :=
  fun _ hm => (mem_findMatchesAI hm).2.1

/-- Witness for the amended C8 theorem, at the concrete wallet items. -/
theorem C8_amended_opposite_type_witness :
    walletFound.itemType ≠ walletLost.itemType :=
  C8_amended_opposite_type dist0 eval60 walletLost [walletFound]
    (walletFound, 60) (by decide)

/-- C4, counterexample: a score-60 match (≥ 55, < 75) is returned by
`findPotentialMatches` and does not fire the owner notification there, but
`uploadItem` emits a MATCH_FOUND notification for it — to the matched item's
owner and to the uploader — so a 55 ≤ score < 75 candidate does trigger
outbound notification emission. -/
theorem C4_midscore_match_notifies :
    findPotentialMatchesResult [(walletFound, 60)] = [(walletFound, 60)] ∧
    ownerNotified [(walletFound, 60)] = false ∧
    uploadItemNotifiedUsers "uploader" (findPotentialMatchesResult [(walletFound, 60)]) =
      ["userFound", "uploader"] ∧
    (55 ≤ (60 : ℚ)) ∧ ¬ (75 ≤ (60 : ℚ)) := by
  refine ⟨by decide, by decide, by decide, by decide, by decide⟩

/-- C4, amended: the returned list retains exactly the matches with score
≥ 55; the notification `findPotentialMatches` sends to the target item's
owner is gated at ≥ 75; but `uploadItem` additionally emits a notification to
every returned match's owner (and to the uploader), so matches in
[55, 75) do trigger notifications through that flow. -/
theorem C4_amended_notification_gates (uploaderId : String) (ms : List (Item × ℚ)) :
    (∀ m, m ∈ findPotentialMatchesResult ms ↔ m ∈ ms ∧ 55 ≤ m.2) ∧
    (ownerNotified ms = true ↔ ∃ m ∈ ms, 75 ≤ m.2) ∧
    (∀ m ∈ findPotentialMatchesResult ms,
      m.1.userId ∈ uploadItemNotifiedUsers uploaderId (findPotentialMatchesResult ms)) := by
  refine ⟨?_, ?_, ?_⟩
  · intro m
    simp [findPotentialMatchesResult, significantMatches, List.mem_filter]
  · constructor
    · intro h
      simp only [ownerNotified, Bool.not_eq_true', List.isEmpty_eq_false_iff_exists_mem] at h
      rcases h with ⟨m, hm⟩
      rcases List.mem_filter.mp hm with ⟨hm55, h75⟩
      rcases List.mem_filter.mp hm55 with ⟨hmem, _⟩
      exact ⟨m, hmem, of_decide_eq_true h75⟩
    · intro ⟨m, hmem, h75⟩
      simp only [ownerNotified, Bool.not_eq_true', List.isEmpty_eq_false_iff_exists_mem]
      refine ⟨m, List.mem_filter.mpr ⟨List.mem_filter.mpr ⟨hmem, ?_⟩, ?_⟩⟩
      · exact decide_eq_true (le_trans (by norm_num) h75)
      · exact decide_eq_true h75
  · intro m hm
    unfold uploadItemNotifiedUsers
    exact List.mem_append_left _ (List.mem_map_of_mem _ hm)

/-- Witness for the amended C4 theorem, at a concrete score-60 match. -/
theorem C4_amended_notification_gates_witness :
    walletFound.userId ∈
      uploadItemNotifiedUsers "uploader" (findPotentialMatchesResult [(walletFound, 60)]) :=
  (C4_amended_notification_gates "uploader" [(walletFound, 60)]).2.2
    (walletFound, 60) (by decide)

/-! ### Characterisations of the individual filter guards -/

lemma tsBad_iff {a b : Option ℤ} :
    tsBad a b = true ↔ ∃ tl tf, a = some tl ∧ b = some tf ∧ tf < tl := by
  cases a <;> cases b <;> simp [tsBad]

lemma catBad_iff {a b : Option String} :
    catBad a b = true ↔
      ∃ cl cf, a = some cl ∧ b = some cf ∧ cl ≠ "" ∧ cf ≠ "" ∧ cl ≠ cf := by
  cases a <;> cases b <;> simp [catBad, and_assoc]

lemma distBad_iff {dist : Coord → Coord → ℚ} {la lb : Location} :
    distBad dist la lb = true ↔
      ∃ a b, coordsOf la = some a ∧ coordsOf lb = some b ∧ 100 < dist a b := by
  unfold distBad distOpt
  cases coordsOf la <;> cases coordsOf lb <;> simp

lemma shouldSkip_eq_or (dist : Coord → Coord → ℚ) (lostItem foundItem : Item) :
    shouldSkipComparison dist lostItem foundItem =
      (lostItem.isResolved || foundItem.isResolved ||
        tsBad lostItem.timestamp foundItem.timestamp ||
        catBad lostItem.category foundItem.category ||
        distBad dist lostItem.location foundItem.location) := by
  unfold shouldSkipComparison
  cases h1 : (lostItem.isResolved || foundItem.isResolved) <;>
    cases h2 : tsBad lostItem.timestamp foundItem.timestamp <;>
      cases h3 : catBad lostItem.category foundItem.category <;>
        cases h4 : distBad dist lostItem.location foundItem.location <;>
          simp [h1, h2, h3, h4]

/-- C2: `shouldSkipComparison` returns true exactly when one of the four
reject rules fires (a resolved side; both timestamps present with found
earlier than lost; both categories truthy and different; both locations with
coordinates and distance above 100 km); and for unresolved pairs lacking
timestamps, categories or coordinates on a side, no reject happens. -/
theorem C2_filter_iff (dist : Coord → Coord → ℚ) (lostItem foundItem : Item) :
    (shouldSkipComparison dist lostItem foundItem = true ↔
      ((lostItem.isResolved = true ∨ foundItem.isResolved = true) ∨
        (∃ tl tf, lostItem.timestamp = some tl ∧ foundItem.timestamp = some tf ∧ tf < tl) ∨
        (∃ cl cf, lostItem.category = some cl ∧ foundItem.category = some cf ∧
          cl ≠ "" ∧ cf ≠ "" ∧ cl ≠ cf) ∨
        (∃ a b, coordsOf lostItem.location = some a ∧ coordsOf foundItem.location = some b ∧
          100 < dist a b))) ∧
    ((lostItem.isResolved = false ∧ foundItem.isResolved = false ∧
      (lostItem.timestamp = Option.none ∨ foundItem.timestamp = Option.none) ∧
      (lostItem.category = Option.none ∨ foundItem.category = Option.none) ∧
      (coordsOf lostItem.location = Option.none ∨ coordsOf foundItem.location = Option.none)) →
      shouldSkipComparison dist lostItem foundItem = false) := by
  constructor
  · rw [shouldSkip_eq_or]
    simp only [Bool.or_eq_true, tsBad_iff, catBad_iff, distBad_iff, or_assoc]
  · rintro ⟨h1, h2, h3, h4, h5⟩
    rw [shouldSkip_eq_or, h1, h2]
    have hts : tsBad lostItem.timestamp foundItem.timestamp = false := by
      rcases h3 with h | h <;> rw [h] <;>
        first
        | rfl
        | (cases lostItem.timestamp <;> rfl)
    have hcat : catBad lostItem.category foundItem.category = false := by
      rcases h4 with h | h <;> rw [h] <;>
        first
        | rfl
        | (cases lostItem.category <;> rfl)
    have hdist : distBad dist lostItem.location foundItem.location = false := by
      unfold distBad distOpt
      rcases h5 with h | h <;>
        rcases hL : coordsOf lostItem.location with _ | a <;>
          rcases hF : coordsOf foundItem.location with _ | b <;>
            simp_all
    rw [hts, hcat, hdist]
    rfl

/-- Witness for C2, at two concrete featureless unresolved items. -/
theorem C2_filter_iff_witness :
    shouldSkipComparison dist0 plainLostA plainFoundC = false :=
  (C2_filter_iff dist0 plainLostA plainFoundC).2 (by decide)

/-- C10: the candidate filter never inspects `itemType` — replacing the item
types of both arguments never changes its verdict — and two unresolved items
of the same type trigger no reject when no rule fires; the opposite-type
restriction lives only in the callers. -/
theorem C10_filter_ignores_type (dist : Coord → Coord → ℚ) (lostItem foundItem : Item) :
    (∀ t1 t2, shouldSkipComparison dist (setItemType t1 lostItem) (setItemType t2 foundItem) =
      shouldSkipComparison dist lostItem foundItem) ∧
    (lostItem.itemType = foundItem.itemType →
      lostItem.isResolved = false → foundItem.isResolved = false →
      tsBad lostItem.timestamp foundItem.timestamp = false →
      catBad lostItem.category foundItem.category = false →
      distBad dist lostItem.location foundItem.location = false →
      shouldSkipComparison dist lostItem foundItem = false) := by
  constructor
  · intro t1 t2
    rfl
  · intro _ h1 h2 h3 h4 h5
    rw [shouldSkip_eq_or, h1, h2, h3, h4, h5]
    rfl

/-- Witness for C10, at two concrete same-type unresolved items. -/
theorem C10_filter_ignores_type_witness :
    shouldSkipComparison dist0 plainLostA plainLostB = false :=
  (C10_filter_ignores_type dist0 plainLostA plainLostB).2 rfl rfl rfl rfl rfl rfl

/-! ### The fallback rubric, as the specification words it -/

/-- Modelled from the spec (section 4.5): category exact match +40, location
scaled linearly from +40 at 0 km to 0 at 100 km when both sides have
coordinates, description overlap 5 points per shared token longer than 2
characters capped at +20.  Stated for comparison with `fallbackScore`. -/
def specFallbackScore (dist : Coord → Coord → ℚ) (lostItem foundItem : Item) : ℚ :=
  (match lostItem.category, foundItem.category with
   | some cl, some cf => if cl ≠ "" ∧ cf ≠ "" ∧ cl = cf then 40 else 0
   | _, _ => 0) +
  (match coordsOf lostItem.location, coordsOf foundItem.location with
   | some a, some b => if dist a b ≤ 100 then 40 - dist a b * (2/5) else 0
   | _, _ => 0) +
  (match lostItem.description, foundItem.description with
   | some ld, some fd =>
       if ld ≠ "" ∧ fd ≠ "" then min 20 ((matchingWordCount ld fd : ℚ) * 5) else 0
   | _, _ => 0)

lemma max_loc_eq (d : ℚ) (hd : 0 ≤ d) :
    max 0 (40 - d * (2/5)) = if d ≤ 100 then 40 - d * (2/5) else 0 := by
  split
  · rename_i h
    rw [max_eq_right]
    linarith
  · rename_i h
    push_neg at h
    rw [max_eq_left]
    linarith

lemma categoryScore_bounds (lostItem foundItem : Item) :
    0 ≤ categoryScore lostItem foundItem ∧ categoryScore lostItem foundItem ≤ 40 := by
  unfold categoryScore
  rcases lostItem.category with _ | cl <;> rcases foundItem.category with _ | cf <;>
    try norm_num
  split <;> norm_num

lemma locationScore_eq (dist : Coord → Coord → ℚ) (lostItem foundItem : Item)
    (hd : ∀ a b, 0 ≤ dist a b) :
    locationScore dist lostItem foundItem =
      (match coordsOf lostItem.location, coordsOf foundItem.location with
       | some a, some b => if dist a b ≤ 100 then 40 - dist a b * (2/5) else 0
       | _, _ => 0) := by
  unfold locationScore distOpt
  rcases hA : coordsOf lostItem.location with _ | a <;>
    rcases hB : coordsOf foundItem.location with _ | b <;> simp
  exact max_loc_eq _ (hd a b)

lemma locationScore_bounds (dist : Coord → Coord → ℚ) (lostItem foundItem : Item)
    (hd : ∀ a b, 0 ≤ dist a b) :
    0 ≤ locationScore dist lostItem foundItem ∧ locationScore dist lostItem foundItem ≤ 40 := by
  unfold locationScore distOpt
  rcases hA : coordsOf lostItem.location with _ | a <;>
    rcases hB : coordsOf foundItem.location with _ | b <;> simp
  exact hd a b

lemma descriptionScore_bounds (lostItem foundItem : Item) :
    0 ≤ descriptionScore lostItem foundItem ∧ descriptionScore lostItem foundItem ≤ 20 := by
  unfold descriptionScore
  rcases lostItem.description with _ | ld <;> rcases foundItem.description with _ | fd <;>
    try norm_num
  split
  · constructor
    · apply le_min (by norm_num)
      positivity
    · exact min_le_left _ _
  · norm_num

/-- C5: the fallback scorer computes exactly the spec's rubric — +40 for an
exact category match, a location component scaled linearly from +40 at 0 km
to 0 at 100 km when both sides have coordinates, and 5 points per shared
token (> 2 characters) capped at +20 — hence its value always lies in
[0, 100], and it is 0 when all optional fields are absent.  The hypothesis
`hd` records that the haversine distance is nonnegative. -/
theorem C5_fallback_formula (dist : Coord → Coord → ℚ) (lostItem foundItem : Item)
    (hd : ∀ a b, 0 ≤ dist a b) :
    fallbackScore dist lostItem foundItem = specFallbackScore dist lostItem foundItem ∧
    0 ≤ fallbackScore dist lostItem foundItem ∧
    fallbackScore dist lostItem foundItem ≤ 100 ∧
    ((lostItem.category = Option.none ∧ foundItem.category = Option.none ∧
      lostItem.location = Location.none ∧ foundItem.location = Location.none ∧
      lostItem.description = Option.none ∧ foundItem.description = Option.none) →
      fallbackScore dist lostItem foundItem = 0) := by
  obtain ⟨hc0, hc40⟩ := categoryScore_bounds lostItem foundItem
  obtain ⟨hl0, hl40⟩ := locationScore_bounds dist lostItem foundItem hd
  obtain ⟨hd0, hd20⟩ := descriptionScore_bounds lostItem foundItem
  refine ⟨?_, ?_, ?_, ?_⟩
  · unfold fallbackScore specFallbackScore
    rw [locationScore_eq dist lostItem foundItem hd]
    unfold categoryScore descriptionScore
    rfl
  · unfold fallbackScore
    linarith
  · unfold fallbackScore
    linarith
  · rintro ⟨h1, h2, h3, h4, h5, h6⟩
    unfold fallbackScore categoryScore locationScore descriptionScore distOpt coordsOf
    rw [h1, h2, h3, h4, h5, h6]
    norm_num

/-- Witness for C5, at the concrete wallet items and the zero distance
function. -/
theorem C5_fallback_formula_witness :
    fallbackScore dist0 walletLost walletFound =
      specFallbackScore dist0 walletLost walletFound ∧
    0 ≤ fallbackScore dist0 walletLost walletFound := by
  have h := C5_fallback_formula dist0 walletLost walletFound (fun _ _ => le_refl 0)
  exact ⟨h.1, h.2.1⟩

/-- C3: evaluation of the notification-cooldown model at the claim's own
scenario.  Two calls 3 s apart deliver exactly one notification, as claimed;
but two calls 6 s apart with the periodic sweep firing in between ALSO
deliver only one — the sweep applies `parseInt` to stored keys of the form
"MATCH_FOUND_..._<time>", which have no leading digits, so the parse is NaN,
the expiry comparison is false, and the user's entry is never purged (no
matter how many sweeps run), contradicting the claim and the sweep's own
stated purpose. -/
theorem C3_cooldown_entries_never_purged :
    (runEvents [SocketEvent.emit "u" matchNotifA 0,
        SocketEvent.emit "u" matchNotifB 3000] []).2 = [("u", 0)] ∧
    (runEvents [SocketEvent.emit "u" matchNotifA 0, SocketEvent.sweep 5000,
        SocketEvent.emit "u" matchNotifB 6000] []).2 = [("u", 0)] ∧
    (runEvents [SocketEvent.emit "u" matchNotifA 0, SocketEvent.sweep 5000,
        SocketEvent.sweep 10000, SocketEvent.sweep 15000,
        SocketEvent.emit "u" matchNotifB 16000] []).2 = [("u", 0)] ∧
    parseIntJS (notificationKey matchNotifA 0) = Option.none := by
  refine ⟨by decide, by decide, by decide, by decide⟩

/-! ### Bounds for the visual similarity scores -/

lemma foldl_step_bounds {α : Type} (g : ℚ → α → ℚ) :
    ∀ (l : List α) (init : ℚ),
      (∀ c x, x ∈ l → c ≤ g c x ∧ g c x ≤ c + 1) →
      init ≤ l.foldl g init ∧ l.foldl g init ≤ init + l.length := by
  intro l
  induction l with
  | nil => intro init _; simp
  | cons x xs ih =>
      intro init h
      have hx := h init x (List.mem_cons_self x xs)
      rw [List.foldl_cons]
      obtain ⟨ih1, ih2⟩ := ih (g init x) (fun c y hy => h c y (List.mem_cons_of_mem x hy))
      refine ⟨le_trans hx.1 ih1, ?_⟩
      have hlen : ((x :: xs).length : ℚ) = xs.length + 1 := by
        push_cast [List.length_cons]
        ring
      rw [hlen]
      linarith [hx.2]

set_option maxHeartbeats 2000000 in
lemma calcLabelSim_bounds (labels1 labels2 : List VisionLabel)
    (h1 : ∀ l ∈ labels1, 0 ≤ l.score ∧ l.score ≤ 1)
    (h2 : ∀ l ∈ labels2, 0 ≤ l.score ∧ l.score ≤ 1)
    (hlen : labels1.length ≤ labels2.length) :
    0 ≤ calculateLabelSimilarity labels1 labels2 ∧
      calculateLabelSimilarity labels1 labels2 ≤ 1 := by
  unfold calculateLabelSimilarity
  split
  · norm_num
  · rename_i hne
    have hnil : labels1 ≠ [] := by
      rcases labels1 with _ | ⟨a, l⟩
      · simp at hne
      · exact List.cons_ne_nil a l
    have hstep : ∀ (c : ℚ) (x : VisionLabel), x ∈ labels1 →
        c ≤ labelMatchStep labels2 c x ∧ labelMatchStep labels2 c x ≤ c + 1 := by
      intro c x hx
      unfold labelMatchStep
      rcases hfind : labels2.find? (fun l2 => fuzzyNameMatch x.description l2.description)
        with _ | m
      · rw [hfind]
        exact ⟨le_refl c, by linarith⟩
      · rw [hfind]
        have hm := h2 m (List.mem_of_find?_eq_some hfind)
        have hx1 := h1 x hx
        constructor
        · exact le_add_of_nonneg_right (mul_nonneg hx1.1 hm.1)
        · exact add_le_add_left (mul_le_one₀ hx1.2 hm.1 hm.2) c
    obtain ⟨hn0, hn1⟩ := foldl_step_bounds (labelMatchStep labels2) labels1 0 hstep
    have hmin : min labels1.length labels2.length = labels1.length := min_eq_left hlen
    rw [hmin]
    have hpos : (0 : ℚ) < labels1.length := by
      exact_mod_cast List.length_pos.mpr hnil
    constructor
    · exact div_nonneg hn0 (le_of_lt hpos)
    · rw [div_le_one hpos]
      linarith

set_option maxHeartbeats 2000000 in
lemma calcObjectSim_bounds (objects1 objects2 : List VisionObject)
    (h1 : ∀ o ∈ objects1, 0 ≤ o.score ∧ o.score ≤ 1)
    (h2 : ∀ o ∈ objects2, 0 ≤ o.score ∧ o.score ≤ 1)
    (hlen : objects1.length ≤ objects2.length) :
    0 ≤ calculateObjectSimilarity objects1 objects2 ∧
      calculateObjectSimilarity objects1 objects2 ≤ 1 := by
  unfold calculateObjectSimilarity
  split
  · norm_num
  · rename_i hne
    have hnil : objects1 ≠ [] := by
      rcases objects1 with _ | ⟨a, l⟩
      · simp at hne
      · exact List.cons_ne_nil a l
    have hstep : ∀ (c : ℚ) (x : VisionObject), x ∈ objects1 →
        c ≤ objectMatchStep objects2 c x ∧ objectMatchStep objects2 c x ≤ c + 1 := by
      intro c x hx
      unfold objectMatchStep
      rcases hfind : objects2.find? (fun o2 => fuzzyNameMatch x.name o2.name) with _ | m
      · rw [hfind]
        exact ⟨le_refl c, by linarith⟩
      · rw [hfind]
        have hm := h2 m (List.mem_of_find?_eq_some hfind)
        have hx1 := h1 x hx
        constructor
        · exact le_add_of_nonneg_right (mul_nonneg hx1.1 hm.1)
        · exact add_le_add_left (mul_le_one₀ hx1.2 hm.1 hm.2) c
    obtain ⟨hn0, hn1⟩ := foldl_step_bounds (objectMatchStep objects2) objects1 0 hstep
    have hmin : min objects1.length objects2.length = objects1.length := min_eq_left hlen
    rw [hmin]
    have hpos : (0 : ℚ) < objects1.length := by
      exact_mod_cast List.length_pos.mpr hnil
    constructor
    · exact div_nonneg hn0 (le_of_lt hpos)
    · rw [div_le_one hpos]
      linarith

lemma jsRound_bounds {x : ℚ} (h0 : 0 ≤ x) (h1 : x ≤ 100) :
    0 ≤ jsRound x ∧ jsRound x ≤ 100 := by
  unfold jsRound
  constructor
  · apply Int.le_floor.mpr
    push_cast
    linarith
  · have h := Int.floor_lt.mpr (show x + 1/2 < ((101 : ℤ) : ℚ) by push_cast; linarith)
    omega

/-- C6, counterexample: the score is not always within 0 to 100 — with two
labels ("cat", "category") both fuzzily matching the single label "cat" of the
other signature (and likewise for objects), both similarities evaluate to 2
and the score to 200. -/
theorem C6_score_exceeds_100 :
    compareImagesScore catLabels1 catLabels2 catObjects1 catObjects2 = 200 ∧
    ¬ (compareImagesScore catLabels1 catLabels2 catObjects1 catObjects2 ≤ 100) := by
  have hl : calculateLabelSimilarity catLabels1 catLabels2 = 2 := by
    unfold calculateLabelSimilarity catLabels1 catLabels2
    rw [if_neg (by decide)]
    simp only [List.foldl_cons, List.foldl_nil, labelMatchStep,
      show List.find? (fun l2 => fuzzyNameMatch "cat" l2.description)
          [(⟨"cat", 1⟩ : VisionLabel)] = some ⟨"cat", 1⟩ from by decide,
      show List.find? (fun l2 => fuzzyNameMatch "category" l2.description)
          [(⟨"cat", 1⟩ : VisionLabel)] = some ⟨"cat", 1⟩ from by decide]
    norm_num
  have ho : calculateObjectSimilarity catObjects1 catObjects2 = 2 := by
    unfold calculateObjectSimilarity catObjects1 catObjects2
    rw [if_neg (by decide)]
    simp only [List.foldl_cons, List.foldl_nil, objectMatchStep,
      show List.find? (fun o2 => fuzzyNameMatch "cat" o2.name)
          [(⟨"cat", 1⟩ : VisionObject)] = some ⟨"cat", 1⟩ from by decide,
      show List.find? (fun o2 => fuzzyNameMatch "category" o2.name)
          [(⟨"cat", 1⟩ : VisionObject)] = some ⟨"cat", 1⟩ from by decide]
    norm_num
  have hs : compareImagesScore catLabels1 catLabels2 catObjects1 catObjects2 = 200 := by
    unfold compareImagesScore
    rw [hl, ho]
    unfold jsRound
    rw [show ((2 : ℚ) * (1/2) + 2 * (1/2)) * 100 + 1/2 = ((200 : ℤ) : ℚ) + 1/2 by norm_num,
      Int.floor_int_add, show ⌊(1/2 : ℚ)⌋ = 0 from by
        rw [Int.floor_eq_zero_iff]
        constructor <;> norm_num]
    norm_num
  exact ⟨hs, by rw [hs]; norm_num⟩

/-- C6, amended: the score equals round((labelSimilarity·0.5 +
objectSimilarity·0.5)·100) by construction, and it lies within 0 to 100
provided every detector confidence lies in [0, 1] and the first signature's
label and object lists are no longer than the second's; the fuzzy matching can
push the score above 100 when the first lists are longer (each of several
first-list entries can match the same shorter second list). -/
theorem C6_amended_round_bounds (labels1 labels2 : List VisionLabel)
    (objects1 objects2 : List VisionObject)
    (hL1 : ∀ l ∈ labels1, 0 ≤ l.score ∧ l.score ≤ 1)
    (hL2 : ∀ l ∈ labels2, 0 ≤ l.score ∧ l.score ≤ 1)
    (hO1 : ∀ o ∈ objects1, 0 ≤ o.score ∧ o.score ≤ 1)
    (hO2 : ∀ o ∈ objects2, 0 ≤ o.score ∧ o.score ≤ 1)
    (hlenL : labels1.length ≤ labels2.length)
    (hlenO : objects1.length ≤ objects2.length) :
    compareImagesScore labels1 labels2 objects1 objects2 =
      jsRound ((calculateLabelSimilarity labels1 labels2 * (1/2) +
        calculateObjectSimilarity objects1 objects2 * (1/2)) * 100) ∧
    0 ≤ compareImagesScore labels1 labels2 objects1 objects2 ∧
    compareImagesScore labels1 labels2 objects1 objects2 ≤ 100 := by
  obtain ⟨hl0, hl1⟩ := calcLabelSim_bounds labels1 labels2 hL1 hL2 hlenL
  obtain ⟨ho0, ho1⟩ := calcObjectSim_bounds objects1 objects2 hO1 hO2 hlenO
  have hw0 : 0 ≤ (calculateLabelSimilarity labels1 labels2 * (1/2) +
      calculateObjectSimilarity objects1 objects2 * (1/2)) * 100 := by nlinarith
  have hw1 : (calculateLabelSimilarity labels1 labels2 * (1/2) +
      calculateObjectSimilarity objects1 objects2 * (1/2)) * 100 ≤ 100 := by nlinarith
  obtain ⟨hb0, hb1⟩ := jsRound_bounds hw0 hw1
  exact ⟨rfl, hb0, hb1⟩

/-- Witness for the amended C6 theorem, at two singleton signatures. -/
theorem C6_amended_round_bounds_witness :
    0 ≤ compareImagesScore [⟨"cat", 1⟩] [⟨"cat", 1⟩] [⟨"cat", 1⟩] [⟨"cat", 1⟩] ∧
    compareImagesScore [⟨"cat", 1⟩] [⟨"cat", 1⟩] [⟨"cat", 1⟩] [⟨"cat", 1⟩] ≤ 100 := by
  have h := C6_amended_round_bounds [⟨"cat", 1⟩] [⟨"cat", 1⟩] [⟨"cat", 1⟩] [⟨"cat", 1⟩]
    (by intro l hl; rw [List.mem_singleton.mp hl]; norm_num)
    (by intro l hl; rw [List.mem_singleton.mp hl]; norm_num)
    (by intro o ho; rw [List.mem_singleton.mp ho]; norm_num)
    (by intro o ho; rw [List.mem_singleton.mp ho]; norm_num)
    (le_refl 1) (le_refl 1)
  exact ⟨h.2.1, h.2.2⟩

/-! ### The lexical similarity against the spec's set Jaccard -/

lemma dedup_length_toFinset (w1 w2 : List String) :
    ((w1 ++ w2).dedup).length = (w1.toFinset ∪ w2.toFinset).card := by
  rw [← List.toFinset_append, List.card_toFinset]

lemma filter_mem_length_toFinset {w1 : List String} (w2 : List String) (hnd : w1.Nodup) :
    (w1.filter (fun w => decide (w ∈ w2))).length = (w1.toFinset ∩ w2.toFinset).card := by
  rw [← List.toFinset_card_of_nodup (hnd.filter _)]
  congr 1
  ext x
  simp [List.mem_filter, Finset.mem_inter]

/-- C7, counterexample: the lexical similarity counts shared tokens with
multiplicity over the first list — for "cat cat" versus "cat" it returns 2,
while the set Jaccard the claim describes is 1, so it is neither that
quotient nor within [0, 1]. -/
theorem C7_multiset_counting :
    calculateTextSimilarity "cat cat" "cat" = 2 ∧
    specJaccardSimilarity "cat cat" "cat" = 1 ∧
    ¬ ((2 : ℚ) ≤ 1) := by
  have key2 : ∀ n m : ℕ, n = 2 → m = 1 → ((n : ℚ) / (m : ℚ)) = 2 := by
    rintro n m rfl rfl
    norm_num
  have key1 : ∀ n m : ℕ, n = 1 → m = 1 → ((n : ℚ) / (m : ℚ)) = 1 := by
    rintro n m rfl rfl
    norm_num
  refine ⟨?_, ?_, by norm_num⟩
  · unfold calculateTextSimilarity
    rw [if_neg (by decide), if_neg (by decide), if_neg (by decide)]
    exact key2 _ _ (by decide) (by decide)
  · unfold specJaccardSimilarity
    exact key1 _ _ (by decide) (by decide)

/-- C7, amended: identical normalized forms score exactly 1; and whenever the
first string's token list is duplicate-free, the similarity equals the set
Jaccard |intersection| / |union| and lies in [0, 1].  With duplicates in the
first string the shared-token count is a multiset count and can exceed 1. -/
theorem C7_amended_jaccard (text1 text2 : String) :
    (text1 ≠ "" → text2 ≠ "" → normalizeText text1 = normalizeText text2 →
      calculateTextSimilarity text1 text2 = 1) ∧
    ((simWords (normalizeText text1)).Nodup →
      0 ≤ calculateTextSimilarity text1 text2 ∧ calculateTextSimilarity text1 text2 ≤ 1) ∧
    ((simWords (normalizeText text1)).Nodup → text1 ≠ "" → text2 ≠ "" →
      normalizeText text1 ≠ normalizeText text2 →
      calculateTextSimilarity text1 text2 = specJaccardSimilarity text1 text2) := by
  refine ⟨?_, ?_, ?_⟩
  · intro h1 h2 heq
    unfold calculateTextSimilarity
    rw [if_neg (by simp [h1, h2]), if_pos heq]
  · intro hnd
    unfold calculateTextSimilarity
    split
    · norm_num
    · split
      · norm_num
      · split
        · norm_num
        · rename_i hucond
          have hnil : simWords (normalizeText text1) ≠ [] := by
            intro hcon
            simp [hcon] at hucond
          have hlen : ((simWords (normalizeText text1)).filter
              (fun w => decide (w ∈ simWords (normalizeText text2)))).length ≤
              (((simWords (normalizeText text1)) ++
                (simWords (normalizeText text2))).dedup).length := by
            rw [filter_mem_length_toFinset _ hnd, dedup_length_toFinset]
            apply Finset.card_le_card
            exact fun x hx => Finset.mem_union_left _ (Finset.mem_of_mem_inter_left hx)
          have hdpos : (0 : ℚ) <
              ((((simWords (normalizeText text1)) ++
                (simWords (normalizeText text2))).dedup).length : ℚ) := by
            have : ((simWords (normalizeText text1)) ++
                (simWords (normalizeText text2))).dedup ≠ [] := by
              rw [ne_eq, List.dedup_eq_nil, List.append_eq_nil]
              intro hcon
              exact hnil hcon.1
            exact_mod_cast List.length_pos.mpr this
          constructor
          · apply div_nonneg (by positivity) (le_of_lt hdpos)
          · rw [div_le_one hdpos]
            exact_mod_cast hlen
  · intro hnd h1 h2 hne
    unfold calculateTextSimilarity specJaccardSimilarity
    rw [if_neg (by simp [h1, h2]), if_neg hne]
    split
    · rename_i hempty
      rcases Bool.or_eq_true _ _ |>.mp hempty with he | he <;>
        rw [List.isEmpty_iff] at he <;> simp [he]
    · rw [filter_mem_length_toFinset _ hnd, dedup_length_toFinset]

/-- Witness for the amended C7 theorem, at duplicate-free concrete strings. -/
theorem C7_amended_jaccard_witness :
    calculateTextSimilarity "red wallet" "wallet red" =
      specJaccardSimilarity "red wallet" "wallet red" ∧
    calculateTextSimilarity "big cat" "big cat" = 1 := by
  constructor
  · exact (C7_amended_jaccard "red wallet" "wallet red").2.2 (by decide) (by decide)
      (by decide) (by decide)
  · exact (C7_amended_jaccard "big cat" "big cat").1 (by decide) (by decide) (by decide)

/-! ### Structure of the category-consistency post-processing -/

lemma boostSpeaker_name (o : DetectedObject) : (boostSpeaker o).name = o.name := by
  unfold boostSpeaker
  split <;> rfl

lemma boostSpeaker_idem (o : DetectedObject) : boostSpeaker (boostSpeaker o) = boostSpeaker o := by
  unfold boostSpeaker
  split
  · simp [sup_assoc, sup_idem]
  · rfl

lemma any_name_boost (os : List DetectedObject) (p : String → Bool) :
    ((os.map boostSpeaker).any fun o => p o.name) = (os.any fun o => p o.name) := by
  induction os with
  | nil => rfl
  | cons x xs ih => simp [List.any_cons, ih, boostSpeaker_name]

lemma isWalletName_rename (o : DetectedObject) : isWalletName (renameWallet o).name = false := by
  unfold renameWallet
  split
  · show isWalletName "Loudspeaker" = false
    decide
  · rename_i h
    cases hb : isWalletName o.name
    · rfl
    · exact absurd hb h

lemma any_wallet_rename (os : List DetectedObject) :
    ((os.map renameWallet).any fun o => isWalletName o.name) = false := by
  induction os with
  | nil => rfl
  | cons x xs ih => simp [List.any_cons, isWalletName_rename, ih]

lemma walletFix_webEntities (d : ImageData) : (walletFix d).webEntities = d.webEntities := by
  unfold walletFix
  split <;> rfl

lemma walletFix_bestGuess (d : ImageData) :
    (walletFix d).bestGuessLabels = d.bestGuessLabels := by
  unfold walletFix
  split <;> rfl

lemma walletFix_colors (d : ImageData) : (walletFix d).dominantColors = d.dominantColors := by
  unfold walletFix
  split <;> rfl

lemma headphoneFix_labels (d : ImageData) : (headphoneFix d).labels = d.labels := by
  unfold headphoneFix
  split <;> rfl

lemma headphoneFix_webEntities (d : ImageData) :
    (headphoneFix d).webEntities = d.webEntities := by
  unfold headphoneFix
  split <;> rfl

lemma headphoneFix_bestGuess (d : ImageData) :
    (headphoneFix d).bestGuessLabels = d.bestGuessLabels := by
  unfold headphoneFix
  split <;> rfl

lemma headphoneFix_colors (d : ImageData) :
    (headphoneFix d).dominantColors = d.dominantColors := by
  unfold headphoneFix
  split <;> rfl

lemma cameraFix_labels (d : ImageData) : (cameraFix d).labels = d.labels := by
  unfold cameraFix
  split <;> rfl

lemma cameraFix_webEntities (d : ImageData) : (cameraFix d).webEntities = d.webEntities := by
  unfold cameraFix
  split <;> rfl

lemma cameraFix_bestGuess (d : ImageData) :
    (cameraFix d).bestGuessLabels = d.bestGuessLabels := by
  unfold cameraFix
  split <;> rfl

lemma cameraFix_colors (d : ImageData) : (cameraFix d).dominantColors = d.dominantColors := by
  unfold cameraFix
  split <;> rfl

lemma speakerBoost_labels (d : ImageData) : (speakerBoost d).labels = d.labels := rfl

lemma speakerBoost_webEntities (d : ImageData) :
    (speakerBoost d).webEntities = d.webEntities := rfl

lemma speakerBoost_bestGuess (d : ImageData) :
    (speakerBoost d).bestGuessLabels = d.bestGuessLabels := rfl

lemma speakerBoost_colors (d : ImageData) :
    (speakerBoost d).dominantColors = d.dominantColors := rfl

lemma hasWallet_speakerBoost (d : ImageData) :
    hasWalletObjects (speakerBoost d) = hasWalletObjects d := by
  unfold hasWalletObjects speakerBoost
  exact any_name_boost _ _

lemma hasWallet_cameraFix (d : ImageData) :
    hasWalletObjects (cameraFix d) = hasWalletObjects d := by
  unfold hasWalletObjects cameraFix
  split
  · simp [List.any_append, show isWalletName cameraObj.name = false from by decide]
  · rfl

lemma hasWallet_headphoneFix (d : ImageData) :
    hasWalletObjects (headphoneFix d) = hasWalletObjects d := by
  unfold hasWalletObjects headphoneFix
  split
  · simp [List.any_append, show isWalletName headphoneObj.name = false from by decide]
  · rfl

lemma hasWallet_walletFix_true {d : ImageData} (h : walletCond d = true) :
    hasWalletObjects (walletFix d) = false := by
  unfold walletFix
  rw [if_pos h]
  show ((if hasSpeakerObject (d.objects.map renameWallet) = true then
      d.objects.map renameWallet
    else d.objects.map renameWallet ++ [loudspeakerObj]).any fun o => isWalletName o.name) =
      false
  split
  · exact any_wallet_rename _
  · simp [List.any_append, show isWalletName loudspeakerObj.name = false from by decide]
    intro x _
    exact isWalletName_rename x

lemma walletCond_congr {X Y : ImageData} (hl : X.labels = Y.labels)
    (hw : X.webEntities = Y.webEntities) (hb : X.bestGuessLabels = Y.bestGuessLabels)
    (hc : X.dominantColors = Y.dominantColors)
    (hwo : hasWalletObjects X = hasWalletObjects Y) : walletCond X = walletCond Y := by
  unfold walletCond speakerEvidence evidenceTerms hasLoudspeakerLabel hasBlackColor
  rw [hl, hw, hb, hc, hwo]

lemma walletFix_id_of_false {Z : ImageData} (h : walletCond Z = false) : walletFix Z = Z := by
  unfold walletFix
  rw [h]
  simp

lemma headphoneFix_id_of_false {Z : ImageData}
    (h : (decide (2 ≤ ((evidenceTerms Z).filter headphoneTermB).length) &&
      !(hasHeadphoneObj Z.objects)) = false) : headphoneFix Z = Z := by
  unfold headphoneFix
  rw [h]
  simp

lemma cameraFix_id_of_false {Z : ImageData}
    (h : (decide (2 ≤ ((evidenceTerms Z).filter cameraTermB).length) &&
      !(hasCameraObj Z.objects)) = false) : cameraFix Z = Z := by
  unfold cameraFix
  rw [h]
  simp

lemma walletFix_after (d : ImageData) :
    walletFix (speakerBoost (cameraFix (headphoneFix (walletFix d)))) =
      speakerBoost (cameraFix (headphoneFix (walletFix d))) := by
  have hcond : walletCond (speakerBoost (cameraFix (headphoneFix (walletFix d)))) = false := by
    by_cases h : walletCond d = true
    · have hw : hasWalletObjects (speakerBoost (cameraFix (headphoneFix (walletFix d)))) =
          false := by
        rw [hasWallet_speakerBoost, hasWallet_cameraFix, hasWallet_headphoneFix,
          hasWallet_walletFix_true h]
      unfold walletCond
      rw [hw]
      rfl
    · have hwd : walletFix d = d := by
        unfold walletFix
        rw [if_neg h]
      rw [hwd]
      have heq : walletCond (speakerBoost (cameraFix (headphoneFix d))) = walletCond d := by
        apply walletCond_congr
        · rw [speakerBoost_labels, cameraFix_labels, headphoneFix_labels]
        · rw [speakerBoost_webEntities, cameraFix_webEntities, headphoneFix_webEntities]
        · rw [speakerBoost_bestGuess, cameraFix_bestGuess, headphoneFix_bestGuess]
        · rw [speakerBoost_colors, cameraFix_colors, headphoneFix_colors]
        · rw [hasWallet_speakerBoost, hasWallet_cameraFix, hasWallet_headphoneFix]
      rw [heq]
      cases hb : walletCond d
      · rfl
      · exact absurd hb h
  exact walletFix_id_of_false hcond

lemma hasHeadphoneObj_boost (os : List DetectedObject) :
    hasHeadphoneObj (os.map boostSpeaker) = hasHeadphoneObj os := by
  unfold hasHeadphoneObj
  exact any_name_boost os (fun n => substrOf "headphone" (jsToLower n))

lemma hasHeadphoneObj_cameraFix (d : ImageData) :
    hasHeadphoneObj (cameraFix d).objects = hasHeadphoneObj d.objects := by
  unfold cameraFix
  split
  · unfold hasHeadphoneObj
    simp [List.any_append,
      show substrOf "headphone" (jsToLower cameraObj.name) = false from by decide]
  · rfl

lemma hasCameraObj_boost (os : List DetectedObject) :
    hasCameraObj (os.map boostSpeaker) = hasCameraObj os := by
  unfold hasCameraObj
  exact any_name_boost os (fun n => substrOf "camera" (jsToLower n))

lemma evidence_after_fixes (X : ImageData) :
    evidenceTerms (speakerBoost (cameraFix (headphoneFix X))) = evidenceTerms X := by
  unfold evidenceTerms
  rw [speakerBoost_labels, cameraFix_labels, headphoneFix_labels,
    speakerBoost_webEntities, cameraFix_webEntities, headphoneFix_webEntities,
    speakerBoost_bestGuess, cameraFix_bestGuess, headphoneFix_bestGuess]

lemma headphoneFix_after (X : ImageData) :
    headphoneFix (speakerBoost (cameraFix (headphoneFix X))) =
      speakerBoost (cameraFix (headphoneFix X)) := by
  have hguard : (decide (2 ≤ ((evidenceTerms
      (speakerBoost (cameraFix (headphoneFix X)))).filter headphoneTermB).length) &&
      !(hasHeadphoneObj (speakerBoost (cameraFix (headphoneFix X))).objects)) = false := by
    by_cases hg : (decide (2 ≤ ((evidenceTerms X).filter headphoneTermB).length) &&
        !(hasHeadphoneObj X.objects)) = true
    · have hfix : headphoneFix X = { X with objects := X.objects ++ [headphoneObj] } := by
        unfold headphoneFix
        rw [if_pos hg]
      have hobj : hasHeadphoneObj (speakerBoost (cameraFix (headphoneFix X))).objects =
          true := by
        show hasHeadphoneObj ((cameraFix (headphoneFix X)).objects.map boostSpeaker) = true
        rw [hasHeadphoneObj_boost, hasHeadphoneObj_cameraFix, hfix]
        unfold hasHeadphoneObj
        simp [List.any_append,
          show substrOf "headphone" (jsToLower headphoneObj.name) = true from by decide]
      rw [hobj]
      simp
    · have hfix : headphoneFix X = X := by
        unfold headphoneFix
        rw [if_neg (by simpa using hg)]
      rw [evidence_after_fixes]
      have hobj : hasHeadphoneObj (speakerBoost (cameraFix (headphoneFix X))).objects =
          hasHeadphoneObj X.objects := by
        show hasHeadphoneObj ((cameraFix (headphoneFix X)).objects.map boostSpeaker) = _
        rw [hasHeadphoneObj_boost, hasHeadphoneObj_cameraFix, hfix]
      rw [hobj]
      simpa using hg
  exact headphoneFix_id_of_false hguard

lemma cameraFix_after (Y : ImageData) :
    cameraFix (speakerBoost (cameraFix Y)) = speakerBoost (cameraFix Y) := by
  have hguard : (decide (2 ≤ ((evidenceTerms
      (speakerBoost (cameraFix Y))).filter cameraTermB).length) &&
      !(hasCameraObj (speakerBoost (cameraFix Y)).objects)) = false := by
    have hev : evidenceTerms (speakerBoost (cameraFix Y)) = evidenceTerms Y := by
      unfold evidenceTerms
      rw [speakerBoost_labels, cameraFix_labels, speakerBoost_webEntities,
        cameraFix_webEntities, speakerBoost_bestGuess, cameraFix_bestGuess]
    by_cases hg : (decide (2 ≤ ((evidenceTerms Y).filter cameraTermB).length) &&
        !(hasCameraObj Y.objects)) = true
    · have hobj : hasCameraObj (speakerBoost (cameraFix Y)).objects = true := by
        show hasCameraObj ((cameraFix Y).objects.map boostSpeaker) = true
        rw [hasCameraObj_boost]
        unfold cameraFix
        rw [if_pos hg]
        unfold hasCameraObj
        simp [List.any_append,
          show substrOf "camera" (jsToLower cameraObj.name) = true from by decide]
      rw [hobj]
      simp
    · have hfix : cameraFix Y = Y := by
        unfold cameraFix
        rw [if_neg (by simpa using hg)]
      rw [hev]
      have hobj : hasCameraObj (speakerBoost (cameraFix Y)).objects =
          hasCameraObj Y.objects := by
        show hasCameraObj ((cameraFix Y).objects.map boostSpeaker) = _
        rw [hasCameraObj_boost, hfix]
      rw [hobj]
      simpa using hg
  exact cameraFix_id_of_false hguard

lemma speakerBoost_idem (X : ImageData) :
    speakerBoost (speakerBoost X) = speakerBoost X := by
  unfold speakerBoost
  have hobj : (X.objects.map boostSpeaker).map boostSpeaker = X.objects.map boostSpeaker := by
    rw [List.map_map]
    apply List.map_congr_left
    intro a _
    exact boostSpeaker_idem a
  rw [hobj]

lemma speakerEvidence_nil_no_loudspeaker {d : ImageData} (h : speakerEvidence d = []) :
    hasLoudspeakerLabel d = false := by
  cases hb : hasLoudspeakerLabel d
  · rfl
  · exfalso
    unfold hasLoudspeakerLabel at hb
    rcases List.any_eq_true.mp hb with ⟨l, hl, hcond⟩
    have hterm : speakerTermB l = true := by
      unfold speakerTermB
      rcases Bool.or_eq_true _ _ |>.mp hcond with h1 | h1
      · rw [of_decide_eq_true h1]
        decide
      · rw [of_decide_eq_true h1]
        decide
    have hmem : l ∈ speakerEvidence d := by
      unfold speakerEvidence evidenceTerms
      exact List.mem_filter.mpr
        ⟨List.mem_append_left _ (List.mem_append_left _ hl), hterm⟩
    rw [h] at hmem
    exact List.not_mem_nil l hmem

/-- C9, counterexample: with a single "Wallet" detection, no speaker-related
term anywhere in labels, web entities or best guesses, and a predominantly
black image, the correction relabels the wallet detection to a
high-confidence "Loudspeaker" — a relabel with zero corroborating
label/entity evidence (the black-color heuristic alone fires it). -/
theorem C9_black_color_relabel :
    speakerEvidence blackWalletData = [] ∧
    hasLoudspeakerLabel blackWalletData = false ∧
    blackWalletData.objects = [⟨"Wallet", 1/2, ⟨0, 0, 1, 1⟩⟩] ∧
    (postProcessAnalysisResult blackWalletData).objects =
      [⟨"Loudspeaker", 19/20, ⟨0, 0, 1, 1⟩⟩] := by
  have hblack : hasBlackColor blackWalletData = true := by
    unfold hasBlackColor blackWalletData
    simp only [List.any_cons, List.any_nil, Bool.or_false]
    norm_num
  have hwcond : walletCond blackWalletData = true := by
    unfold walletCond
    rw [hblack, show hasWalletObjects blackWalletData = true from by decide]
    simp
  have hrename : blackWalletData.objects.map renameWallet =
      [⟨"Loudspeaker", 19/20, ⟨0, 0, 1, 1⟩⟩] := by
    show [renameWallet ⟨"Wallet", 1/2, ⟨0, 0, 1, 1⟩⟩] = _
    unfold renameWallet
    rw [if_pos (by decide)]
  have hwf : walletFix blackWalletData =
      { blackWalletData with
        objects := [⟨"Loudspeaker", 19/20, ⟨0, 0, 1, 1⟩⟩],
        labels := ["Loudspeaker"] } := by
    unfold walletFix
    rw [if_pos hwcond, hrename]
    rw [if_pos (show hasSpeakerObject [⟨"Loudspeaker", 19/20, ⟨0, 0, 1, 1⟩⟩] = true from
      by decide)]
    rw [if_neg (show ¬ (hasSpeakerLabel blackWalletData.labels = true) from by decide)]
    simp [blackWalletData]
  have hhf : headphoneFix (walletFix blackWalletData) = walletFix blackWalletData := by
    apply headphoneFix_id_of_false
    rw [hwf]
    decide
  have hcf : cameraFix (walletFix blackWalletData) = walletFix blackWalletData := by
    apply cameraFix_id_of_false
    rw [hwf]
    decide
  refine ⟨by decide, by decide, rfl, ?_⟩
  unfold postProcessAnalysisResult
  rw [hhf, hcf, hwf]
  show List.map boostSpeaker [⟨"Loudspeaker", 19/20, ⟨0, 0, 1, 1⟩⟩] = _
  rw [List.map_cons, List.map_nil]
  have hb : boostSpeaker ⟨"Loudspeaker", 19/20, ⟨0, 0, 1, 1⟩⟩ =
      ⟨"Loudspeaker", max (19/20) (19/20), ⟨0, 0, 1, 1⟩⟩ := by
    unfold boostSpeaker
    rw [if_pos (by decide)]
  rw [hb, max_self]

/-- C9, amended: the post-processing correction is idempotent, and with zero
speaker evidence, no dark-dominant color, and fewer than two headphone and
camera evidence terms, it only applies the confidence boost to already
present speaker detections (no relabel, no added detection); but the
wallet → speaker relabel can fire with zero label/entity evidence when the
black-color heuristic alone holds. -/
theorem C9_postprocess_idempotent (d : ImageData) :
    postProcessAnalysisResult (postProcessAnalysisResult d) = postProcessAnalysisResult d ∧
    ((speakerEvidence d = [] ∧ hasBlackColor d = false ∧
      ((evidenceTerms d).filter headphoneTermB).length < 2 ∧
      ((evidenceTerms d).filter cameraTermB).length < 2) →
      (postProcessAnalysisResult d).objects = d.objects.map boostSpeaker) := by
  constructor
  · unfold postProcessAnalysisResult
    rw [walletFix_after, headphoneFix_after, cameraFix_after, speakerBoost_idem]
  · rintro ⟨hse, hbc, hhe, hce⟩
    have hll := speakerEvidence_nil_no_loudspeaker hse
    have hwc : walletCond d = false := by
      unfold walletCond
      rw [hse, hbc, hll]
      simp
    have hwf : walletFix d = d := by
      unfold walletFix
      rw [hwc]
      simp
    have hhf : headphoneFix d = d := by
      unfold headphoneFix
      rw [if_neg]
      simp
      omega
    have hcf : cameraFix d = d := by
      unfold cameraFix
      rw [if_neg]
      simp
      omega
    unfold postProcessAnalysisResult
    rw [hwf, hhf, hcf]
    rfl

/-- Witness for the amended C9 theorem, at an evidence-free analysis result. -/
theorem C9_postprocess_idempotent_witness :
    (postProcessAnalysisResult
        { labels := [], objects := [], webEntities := [], bestGuessLabels := [],
          dominantColors := [] }).objects = [] := by
  have h := (C9_postprocess_idempotent
    { labels := [], objects := [], webEntities := [], bestGuessLabels := [],
      dominantColors := [] }).2 ⟨by decide, by decide, by decide, by decide⟩
  simpa using h

end LostFound
